import Mathlib

/-!
Verification of the City Energy Analyst integration-glue excerpt.

This file shallowly embeds the two source modules:

* `cea/concept_project/network_layout_main.py` — the thermal-network layout
  orchestrator `network_layout`, modelled as a pure function that returns the
  trace of calls it makes to its three external GIS stage functions.

* `cea/interfaces/arcgis/CityEnergyAnalyst.py` — the ArcGIS toolbox adapter
  (`DemandTool`, `add_message`, `get_weather_names`, `get_weather`,
  `get_radiation`, `get_surface_properties`, `get_python_exe`, `_cli_output`,
  `run_cli`), modelled over an explicit environment `Env` that supplies the
  contents of `~/cea_python.pth`, the file-system existence predicate and the
  behaviour of spawned subprocesses.  Each adapter operation returns its
  result together with the list of observable effects (processes spawned, UI
  error messages set, log messages emitted) in the order they occur.

Theorems about these definitions settle the specification claims.
-/

/-! ## String helpers (Python `str.strip`, `str.rstrip`, `str.endswith`, `readline`) -/

/-- Python's `str.rstrip()`: drop trailing whitespace. -/
def rstrip (s : String) : String :=
  String.mk ((s.data.reverse.dropWhile Char.isWhitespace).reverse)

/-- Python's `str.strip()`: drop leading and trailing whitespace. -/
def strip (s : String) : String :=
  String.mk ((((s.data.dropWhile Char.isWhitespace).reverse.dropWhile Char.isWhitespace).reverse))

/-- Python's `str.endswith(t)`. -/
def strEndsWith (s t : String) : Bool :=
  s.data.reverse.take t.data.length == t.data.reverse

/-- Helper for `readLines`: split a character stream into lines the way
repeated `file.readline()` calls return them, each line keeping its trailing
newline; a final unterminated fragment is returned without one. -/
def splitLinesAux : List Char → List Char → List String
  | [], acc => if acc.isEmpty then [] else [String.mk acc.reverse]
  | c :: cs, acc =>
    if c = '\n' then String.mk (acc.reverse ++ ['\n']) :: splitLinesAux cs []
    else splitLinesAux cs (c :: acc)

/-- The successive non-empty results of `readline()` on a pipe whose full
contents are `s` (after these, `readline` returns `''` forever). -/
def readLines (s : String) : List String :=
  splitLinesAux s.data []

/-! ## Orchestrator model: `cea/concept_project/network_layout_main.py`

`network_layout` only sequences three external GIS computations, passing file
paths between them.  We embed it as a function returning the list of stage
calls it performs, in order, each constructor carrying the exact arguments the
source passes to the corresponding external function. -/

/-- The `config.network_layout` section read by `network_layout`. -/
structure NetworkLayoutSection where
  type_mat : String
  pipe_diameter : String
  network_type : String
  create_plant : Bool
  buildings : List String
  allow_looped_networks : Bool
deriving DecidableEq

/-- The `config.thermal_network` section read by `network_layout`. -/
structure ThermalNetworkSection where
  disconnected_buildings : List String
deriving DecidableEq

/-- The configuration object passed to `network_layout`. -/
structure Config where
  network_layout : NetworkLayoutSection
  thermal_network : ThermalNetworkSection
deriving DecidableEq

/-- The `cea.inputlocator.InputLocator` methods used by `network_layout`,
modelled as uninterpreted path-producing fields. -/
structure InputLocator where
  get_zone_geometry : String
  get_temporary_file : String → String
  get_electric_networks_folder : String
  get_total_demand : String
  get_network_layout_edges_shapefile : String → String → String
  get_network_layout_nodes_shapefile : String → String → String
  get_input_network_folder : String → String → String

/-- OS facts used by `network_layout`: the path separator used by
`os.path.join` and the home directory substituted by `os.path.expanduser`. -/
structure OsEnv where
  sep : String
  home : String
deriving DecidableEq

/-- One call made by `network_layout` to an external GIS stage function,
with the exact arguments of the source call site. -/
inductive StageCall where
  | substation_location (input_buildings_shp output_substations_shp : String)
      (connected_buildings : List String)
  | connectivity_network (path_arcgis_db input_paths_shp output_substations_shp
      path_potential_network : String)
  | steiner_spanning_tree (path_potential_network output_network_folder
      output_substations_shp output_edges output_nodes weight_field type_mat
      pipe_diameter network_type total_demand_location : String)
      (create_plant allow_looped_networks optimization_flag : Bool)
      (plant_building_names disconnected_building_names : List String)
  | minimum_spanning_tree (path_potential_network output_network_folder
      output_substations_shp output_edges output_nodes weight_field type_mat
      pipe_diameter : String)
deriving DecidableEq

/-- Whether a stage call is a `calc_substation_location` call. -/
def StageCall.isSubstationLocation : StageCall → Bool
  | .substation_location _ _ _ => true
  | _ => false

/-- Whether a stage call is a `calc_connectivity_network` call. -/
def StageCall.isConnectivityNetwork : StageCall → Bool
  | .connectivity_network _ _ _ _ => true
  | _ => false

/-- Whether a stage call is a `calc_steiner_spanning_tree` call. -/
def StageCall.isSteinerSpanningTree : StageCall → Bool
  | .steiner_spanning_tree _ _ _ _ _ _ _ _ _ _ _ _ _ _ _ => true
  | _ => false

/-- Whether a stage call is a `calc_minimum_spanning_tree` call. -/
def StageCall.isMinimumSpanningTree : StageCall → Bool
  | .minimum_spanning_tree _ _ _ _ _ _ _ _ => true
  | _ => false

/-- The `output_substations_shp` argument of a `calc_substation_location`
call (its output file). -/
def StageCall.substationOutputPath : StageCall → Option String
  | .substation_location _ out _ => some out
  | _ => none

/-- The `output_substations_shp` argument of a `calc_connectivity_network`
call (one of its inputs). -/
def StageCall.connectivitySubstationsInput : StageCall → Option String
  | .connectivity_network _ _ subs _ => some subs
  | _ => none

/-- The `path_potential_network` argument of a `calc_connectivity_network`
call (its output file). -/
def StageCall.connectivityOutputPath : StageCall → Option String
  | .connectivity_network _ _ _ pot => some pot
  | _ => none

/-- The `path_potential_network` argument of a `calc_steiner_spanning_tree`
call (one of its inputs). -/
def StageCall.steinerPotentialInput : StageCall → Option String
  | .steiner_spanning_tree pot _ _ _ _ _ _ _ _ _ _ _ _ _ _ => some pot
  | _ => none

/-- Embedding of `network_layout` from
`cea/concept_project/network_layout_main.py`: it resolves paths from the
configuration and the locator and calls the three external stage functions in
sequence.  The returned list is the trace of those calls in program order. -/
def network_layout (os : OsEnv) (config : Config) (locator : InputLocator)
    (plant_building_names : List String) (input_path_name : String)
    (output_name_network : String) (optimization_flag : Bool) : List StageCall :=
  let weight_field := "Shape_Leng"
  let type_mat_default := config.network_layout.type_mat
  let pipe_diameter_default := config.network_layout.pipe_diameter
  let type_network := config.network_layout.network_type
  let create_plant := config.network_layout.create_plant
  let input_buildings_shp := locator.get_zone_geometry
  let connected_buildings := config.network_layout.buildings
  let output_substations_shp := locator.get_temporary_file "nodes_buildings.shp"
  let input_paths_shp := locator.get_electric_networks_folder ++ "/" ++ input_path_name ++ ".shp"
  let path_potential_network := locator.get_temporary_file "potential_network.shp"
  let path_default_arcgis_db :=
    os.home ++ os.sep ++ "Documents" ++ os.sep ++ "ArcGIS" ++ os.sep ++ "Default.gdb"
  let total_demand_location := locator.get_total_demand
  let output_edges := locator.get_network_layout_edges_shapefile type_network output_name_network
  let output_nodes := locator.get_network_layout_nodes_shapefile type_network output_name_network
  let output_network_folder := locator.get_input_network_folder type_network output_name_network
  let disconnected_building_names := config.thermal_network.disconnected_buildings
  [StageCall.substation_location input_buildings_shp output_substations_shp connected_buildings,
   StageCall.connectivity_network path_default_arcgis_db input_paths_shp output_substations_shp
     path_potential_network,
   StageCall.steiner_spanning_tree path_potential_network output_network_folder
     output_substations_shp output_edges output_nodes weight_field type_mat_default
     pipe_diameter_default type_network total_demand_location create_plant
     config.network_layout.allow_looped_networks optimization_flag plant_building_names
     disconnected_building_names]

/-- C1: for every configuration, locator, plant-building list and input path
name (and any output name and optimization flag), `network_layout` performs
exactly three stage calls, in the order substation location, connectivity
network, Steiner spanning tree; the substations output path of the first call
is the substations input of the second, and the potential-network output path
of the second is the potential-network input of the third. -/
theorem network_layout_three_stages_chained (os : OsEnv) (config : Config)
    (locator : InputLocator) (plant_building_names : List String)
    (input_path_name output_name_network : String) (optimization_flag : Bool) :
    ∃ c1 c2 c3, network_layout os config locator plant_building_names input_path_name
        output_name_network optimization_flag = [c1, c2, c3] ∧
      c1.isSubstationLocation = true ∧
      c2.isConnectivityNetwork = true ∧
      c3.isSteinerSpanningTree = true ∧
      c2.connectivitySubstationsInput = c1.substationOutputPath ∧
      c3.steinerPotentialInput = c2.connectivityOutputPath := by
  refine ⟨_, _, _, rfl, rfl, rfl, rfl, rfl, rfl⟩

/-- C8: every invocation of `network_layout` computes the spanning-tree stage
via `calc_steiner_spanning_tree` exactly once, and never invokes the
`calc_minimum_spanning_tree` code path (which is commented out in the source),
for every configuration and in particular whether or not the optimization
flag is set. -/
theorem network_layout_always_steiner_never_mst (os : OsEnv) (config : Config)
    (locator : InputLocator) (plant_building_names : List String)
    (input_path_name output_name_network : String) (optimization_flag : Bool) :
    ((network_layout os config locator plant_building_names input_path_name
        output_name_network optimization_flag).countP
          (fun c => c.isSteinerSpanningTree) = 1) ∧
    ((network_layout os config locator plant_building_names input_path_name
        output_name_network optimization_flag).countP
          (fun c => c.isMinimumSpanningTree) = 0) := by
  constructor <;> rfl

/-! ## Toolbox adapter model: `cea/interfaces/arcgis/CityEnergyAnalyst.py`

The adapter shells out to `cea.cli` subprocesses and reports through the
ArcGIS UI.  `Env` supplies every external fact the module consults; each
operation returns its result alongside the ordered list of observable
effects. -/

/-- Result of running one subprocess to completion: its exit status, the full
contents of its stdout and stderr pipes, and how many times `readline` on its
stdout returned the empty string (end of file) while `poll()` still reported
the process as running. -/
structure Proc where
  exitCode : Nat
  stdout : String
  stderr : String
  emptyPolls : Nat
deriving DecidableEq

/-- The external environment of the toolbox module: the contents of
`~/cea_python.pth` (`none` when the file is absent or unreadable), the
`os.path.exists` predicate, and the behaviour of each spawned command. -/
structure Env where
  cea_python_pth : Option String
  pathExists : String → Bool
  run : List String → Proc

/-- Errors raised by the toolbox helpers: the `AssertionError` of
`get_python_exe`, and `subprocess.CalledProcessError` raised by
`subprocess.check_output` on a non-zero exit status. -/
inductive CeaError where
  | assertionError (msg : String)
  | calledProcessError (cmd : List String) (returncode : Nat)
deriving DecidableEq

deriving instance DecidableEq for Except

/-- One observable effect of a toolbox operation, in program order. -/
inductive Effect where
  | spawn (cmd : List String)
  | fsExists (path : String) (result : Bool)
  | setErrorMessage (paramIndex : Nat) (msg : String)
  | addMessage (msg : String)
deriving DecidableEq

/-- Embedding of `get_python_exe`: read `~/cea_python.pth`, strip the
contents; any failure is turned into an `AssertionError` by the bare
`except` clause. -/
def get_python_exe (env : Env) : Except CeaError String :=
  match env.cea_python_pth with
  | some contents => .ok (strip contents)
  | none => .error (.assertionError "Could not find 'cea_python.pth' in home directory.")

/-- Embedding of `_cli_output`: run the CLI via `subprocess.check_output`
(which raises `CalledProcessError` on a non-zero exit status) and return the
stripped stdout.  `get_python_exe` is evaluated while building the command,
before the subprocess is spawned. -/
def _cli_output (env : Env) (scenario_path : String) (args : List String) :
    Except CeaError String × List Effect :=
  match get_python_exe env with
  | .error e => (.error e, [])
  | .ok exe =>
    let cmd := [exe, "-m", "cea.cli", "--scenario", scenario_path] ++ args
    let p := env.run cmd
    if p.exitCode = 0 then (.ok (strip p.stdout), [.spawn cmd])
    else (.error (.calledProcessError cmd p.exitCode), [.spawn cmd])

/-- Embedding of `get_weather`.  The Python parameter defaults to
`'default'`, so the no-argument call `get_weather()` is
`get_weather env "default"`. -/
def get_weather (env : Env) (weather_name : String) : Except CeaError String × List Effect :=
  _cli_output env "" ["weather-path", weather_name]

/-- Embedding of `get_radiation`. -/
def get_radiation (env : Env) (scenario_path : String) :
    Except CeaError String × List Effect :=
  _cli_output env scenario_path ["locate", "get_radiation"]

/-- Embedding of `get_surface_properties`. -/
def get_surface_properties (env : Env) (scenario_path : String) :
    Except CeaError String × List Effect :=
  _cli_output env scenario_path ["locate", "get_surface_properties"]

/-- The generator loop inside `get_weather_names`: keep reading lines and
yielding them right-stripped until `readline` returns the empty string. -/
def weatherNamesFromLines : List String → List String
  | [] => []
  | l :: ls => if l = "" then [] else rstrip l :: weatherNamesFromLines ls

/-- Embedding of `get_weather_names`: spawn `cea.cli weather-files` and
collect its stdout lines, right-stripped.  The exit status of the process is
never consulted. -/
def get_weather_names (env : Env) : Except CeaError (List String) × List Effect :=
  match get_python_exe env with
  | .error e => (.error e, [])
  | .ok exe =>
    let cmd := [exe, "-u", "-m", "cea.cli", "weather-files"]
    let p := env.run cmd
    (.ok (weatherNamesFromLines (readLines p.stdout)), [.spawn cmd])

/-- Embedding of `run_cli`: spawn the CLI, stream each stdout line through
`add_message` (right-stripped) as it arrives — `readline` returning `''`
while `poll()` is still `None` logs an empty message and retries — then
`communicate()` returns whatever stdout remains past the point already read
(nothing, since the loop only exits at end of file) together with the full
stderr, and both are logged.  The exit status is never consulted. -/
def run_cli (env : Env) (scenario_path : String) (args : List String) :
    Except CeaError Unit × List Effect :=
  match get_python_exe env with
  | .error e => (.error e, [])
  | .ok exe =>
    let cmd := [exe, "-u", "-m", "cea.cli", "--scenario", scenario_path] ++ args
    let p := env.run cmd
    let streamed := ((readLines p.stdout).map rstrip) ++ List.replicate p.emptyPolls ""
    (.ok (), .spawn cmd :: (streamed.map Effect.addMessage) ++
      [.addMessage "", .addMessage p.stderr])

/-- Embedding of `DemandTool.updateMessages`: with no scenario path it
returns at once; otherwise it checks that the scenario folder exists (setting
an error message and returning when it does not), then checks the radiation
file and the surface-properties file, each check setting an error message on
parameter 0 when its file is missing.  Both file paths are obtained through
`_cli_output`, whose errors propagate. -/
def updateMessages (env : Env) (scenario_path : Option String) :
    Except CeaError Unit × List Effect :=
  match scenario_path with
  | none => (.ok (), [])
  | some sp =>
    let e1 := Effect.fsExists sp (env.pathExists sp)
    if env.pathExists sp = false then
      (.ok (), [e1, .setErrorMessage 0 ("Scenario folder not found: " ++ sp)])
    else
      match get_radiation env sp with
      | (.error err, effR) => (.error err, e1 :: effR)
      | (.ok rad, effR) =>
        let e2 := Effect.fsExists rad (env.pathExists rad)
        let m1 := if env.pathExists rad = false then
          [Effect.setErrorMessage 0 "No radiation data found for scenario. Run radiation script first."]
          else []
        match get_surface_properties env sp with
        | (.error err, effS) => (.error err, e1 :: effR ++ e2 :: m1 ++ effS)
        | (.ok surf, effS) =>
          let e3 := Effect.fsExists surf (env.pathExists surf)
          let m2 := if env.pathExists surf = false then
            [Effect.setErrorMessage 0 "No radiation data found for scenario. Run radiation script first."]
            else []
          (.ok (), e1 :: effR ++ e2 :: m1 ++ effS ++ e3 :: m2)

/-- Embedding of `DemandTool.execute`: resolve the weather argument — a
registered weather name is looked up through `get_weather`; otherwise an
existing path ending in `.epw` is used directly; otherwise the default lookup
`get_weather()` is used — then run `cea.cli demand --weather <path>` through
`run_cli`. -/
def DemandTool.execute (env : Env) (scenario_path weather_name : String) :
    Except CeaError Unit × List Effect :=
  match get_weather_names env with
  | (.error e, eff1) => (.error e, eff1)
  | (.ok names, eff1) =>
    if weather_name ∈ names then
      match get_weather env weather_name with
      | (.error e, eff2) => (.error e, eff1 ++ eff2)
      | (.ok weather_path, eff2) =>
        let r := run_cli env scenario_path ["demand", "--weather", weather_path]
        (r.1, eff1 ++ eff2 ++ r.2)
    else if env.pathExists weather_name && strEndsWith weather_name ".epw" then
      let r := run_cli env scenario_path ["demand", "--weather", weather_name]
      (r.1, eff1 ++ [.fsExists weather_name (env.pathExists weather_name)] ++ r.2)
    else
      let effChk := [Effect.fsExists weather_name (env.pathExists weather_name)]
      match get_weather env "default" with
      | (.error e, eff2) => (.error e, eff1 ++ effChk ++ eff2)
      | (.ok weather_path, eff2) =>
        let r := run_cli env scenario_path ["demand", "--weather", weather_path]
        (r.1, eff1 ++ effChk ++ eff2 ++ r.2)

/-- Result of one `add_message` call: the message shown through
`arcpy.AddMessage`, the writes performed on the log file, and the log file's
new contents. -/
structure AddMessageResult where
  arcpyMessages : List String
  fileWrites : List String
  newLogContent : String
deriving DecidableEq

/-- Embedding of `add_message`: apply `%`-interpolation when keyword
arguments are given (`interp` models Python's `%` operator on the message),
show the message in the UI, then open `<temp-dir>/cea.log` in append mode and
perform a single write of the message. -/
def add_message (interp : String → List (String × String) → String)
    (logContent : String) (msg : String) (kwargs : List (String × String)) :
    AddMessageResult :=
  let m := if kwargs.length ≠ 0 then interp msg kwargs else msg
  { arcpyMessages := [m], fileWrites := [m], newLogContent := logContent ++ m }

/-- The `add_message` strings recorded in an effect trace, in order. -/
def loggedMessages (effs : List Effect) : List String :=
  effs.filterMap fun e => match e with
    | .addMessage m => some m
    | _ => none

/-- The `setErrorMessage` strings recorded in an effect trace, in order. -/
def errorMessagesSet (effs : List Effect) : List String :=
  effs.filterMap fun e => match e with
    | .setErrorMessage _ m => some m
    | _ => none

/-- The commands spawned in an effect trace, in order. -/
def spawnedCommands (effs : List Effect) : List (List String) :=
  effs.filterMap fun e => match e with
    | .spawn cmd => some cmd
    | _ => none

/-- The weather path handed to the `demand` CLI invocation in an effect
trace, if any: the argument following `--weather` in a spawned
`... --scenario <sp> demand --weather <wp>` command. -/
def spawnWeatherArg : Effect → Option String
  | .spawn [_, "-u", "-m", "cea.cli", "--scenario", _, "demand", "--weather", wp] => some wp
  | _ => none

/-- The weather path of the first `demand` CLI spawn in an effect trace. -/
def demandSpawnWeather (effs : List Effect) : Option String :=
  (effs.filterMap spawnWeatherArg).head?

/-! ## Claim theorems -/

/-- C10: when the scenario-path parameter is unset (`valueAsText` is `None`),
`updateMessages` returns immediately: no error message is set and no
file-system existence check (nor any CLI call) is performed — the effect
trace is empty. -/
theorem updateMessages_none_no_effects (env : Env) :
    updateMessages env none = (.ok (), []) := rfl

/-- C9: every call to `add_message` performs exactly one write to the
`cea.log` file, opened in append mode: the new log contents are exactly the
old contents followed by the single written message, so all previously
written content is unchanged. -/
theorem add_message_single_append (interp : String → List (String × String) → String)
    (logContent msg : String) (kwargs : List (String × String)) :
    ∃ m, (add_message interp logContent msg kwargs).fileWrites = [m] ∧
      (add_message interp logContent msg kwargs).newLogContent = logContent ++ m :=
  ⟨_, rfl, rfl⟩

/-- C3: when `~/cea_python.pth` is absent or unreadable, each CLI-invoking
helper (`_cli_output`, `run_cli`, `get_weather_names`) fails with the
`AssertionError` raised by `get_python_exe`, and its effect trace is empty —
in particular no subprocess is spawned. -/
theorem helpers_fail_before_spawn (env : Env) (scenario_path : String)
    (args : List String) (h : env.cea_python_pth = none) :
    _cli_output env scenario_path args =
      (.error (.assertionError "Could not find 'cea_python.pth' in home directory."), []) ∧
    run_cli env scenario_path args =
      (.error (.assertionError "Could not find 'cea_python.pth' in home directory."), []) ∧
    get_weather_names env =
      (.error (.assertionError "Could not find 'cea_python.pth' in home directory."), []) := by
  refine ⟨?_, ?_, ?_⟩ <;> simp [_cli_output, run_cli, get_weather_names, get_python_exe, h]

/-- Environment with no `cea_python.pth` file, for the C3 witness. -/
def envNoPth : Env :=
  { cea_python_pth := none
    pathExists := fun _ => false
    run := fun _ => { exitCode := 0, stdout := "", stderr := "", emptyPolls := 0 } }

/-- Witness for C3 at a concrete environment. -/
theorem helpers_fail_before_spawn_witness :
    envNoPth.cea_python_pth = none ∧
    (_cli_output envNoPth "scn" ["locate", "get_radiation"] =
      (.error (.assertionError "Could not find 'cea_python.pth' in home directory."), []) ∧
    run_cli envNoPth "scn" ["locate", "get_radiation"] =
      (.error (.assertionError "Could not find 'cea_python.pth' in home directory."), []) ∧
    get_weather_names envNoPth =
      (.error (.assertionError "Could not find 'cea_python.pth' in home directory."), [])) :=
  ⟨rfl, helpers_fail_before_spawn envNoPth "scn" ["locate", "get_radiation"] rfl⟩

/-- Environment whose CLI subprocess exits with status 1, for the C2
counterexample and witness. -/
def envExitOne : Env :=
  { cea_python_pth := some "python"
    pathExists := fun _ => false
    run := fun _ => { exitCode := 1, stdout := "broken output", stderr := "", emptyPolls := 0 } }

/-- Counterexample to C2 as stated: with a subprocess exiting with status 1,
`get_weather` (via `_cli_output`, i.e. `subprocess.check_output`) does not
hand the caller the trimmed stdout — it raises `CalledProcessError`, so a
non-zero exit status is distinguished from success. -/
theorem cli_output_nonzero_exit_cex :
    (envExitOne.run ["python", "-m", "cea.cli", "--scenario", "", "weather-path", "zug"]).exitCode ≠ 0 ∧
    (get_weather envExitOne "zug").1 ≠
      .ok (strip (envExitOne.run
        ["python", "-m", "cea.cli", "--scenario", "", "weather-path", "zug"]).stdout) ∧
    (get_weather envExitOne "zug").1 =
      .error (.calledProcessError
        ["python", "-m", "cea.cli", "--scenario", "", "weather-path", "zug"] 1) := by
  refine ⟨by decide, by decide, by decide⟩

/-- C2 amended: in the `_cli_output`-based helpers the exit status of the
spawned subprocess is inspected by `subprocess.check_output`: on exit status
0 the caller receives the stripped stdout, while on a non-zero exit status a
`CalledProcessError` carrying the command and the return code propagates to
the caller instead. -/
theorem cli_output_exit_status_distinguished (env : Env) (scenario_path : String)
    (args : List String) (exe : String) (h : get_python_exe env = .ok exe) :
    ((env.run ([exe, "-m", "cea.cli", "--scenario", scenario_path] ++ args)).exitCode = 0 →
      (_cli_output env scenario_path args).1 =
        .ok (strip (env.run ([exe, "-m", "cea.cli", "--scenario", scenario_path] ++ args)).stdout)) ∧
    ((env.run ([exe, "-m", "cea.cli", "--scenario", scenario_path] ++ args)).exitCode ≠ 0 →
      (_cli_output env scenario_path args).1 =
        .error (.calledProcessError ([exe, "-m", "cea.cli", "--scenario", scenario_path] ++ args)
          (env.run ([exe, "-m", "cea.cli", "--scenario", scenario_path] ++ args)).exitCode)) := by
  cases hp : env.cea_python_pth with
  | none => simp [get_python_exe, hp] at h
  | some c =>
    have hexe : exe = strip c := by
      simpa [get_python_exe, hp] using h.symm
    subst hexe
    constructor <;> intro hc
    · simp only [_cli_output, get_python_exe, hp]
      rw [if_pos hc]
    · simp only [_cli_output, get_python_exe, hp]
      rw [if_neg hc]

/-- Witness for the amended C2 at a concrete environment (non-zero exit). -/
theorem cli_output_exit_status_distinguished_witness :
    (_cli_output envExitOne "" ["weather-path", "zug"]).1 =
      .error (.calledProcessError
        ["python", "-m", "cea.cli", "--scenario", "", "weather-path", "zug"] 1) :=
  (cli_output_exit_status_distinguished envExitOne "" ["weather-path", "zug"] "python"
    rfl).2 (by decide)

/-! ## Helper lemmas about the adapter operations -/

/-- A successful `_cli_output` call pins down the whole call: the interpreter
path file was readable, the subprocess exited with status 0, and the one
effect is the spawn of the CLI command. -/
theorem cli_output_ok (env : Env) (scenario_path : String) (args : List String)
    (r : String) (h : (_cli_output env scenario_path args).1 = .ok r) :
    ∃ c, env.cea_python_pth = some c ∧
      _cli_output env scenario_path args =
        (.ok r, [.spawn ([strip c, "-m", "cea.cli", "--scenario", scenario_path] ++ args)]) := by
  cases hp : env.cea_python_pth with
  | none => simp [_cli_output, get_python_exe, hp] at h
  | some c =>
    refine ⟨c, rfl, ?_⟩
    by_cases hc :
        (env.run ([strip c, "-m", "cea.cli", "--scenario", scenario_path] ++ args)).exitCode = 0
    · simp only [_cli_output, get_python_exe, hp] at h ⊢
      rw [if_pos hc] at h ⊢
      simp only [Except.ok.injEq] at h
      rw [h]
    · simp only [_cli_output, get_python_exe, hp] at h
      rw [if_neg hc] at h
      simp at h

/-- Unfolding of `get_weather_names` when the interpreter path file is
present. -/
theorem get_weather_names_eq (env : Env) (c : String) (hp : env.cea_python_pth = some c) :
    get_weather_names env =
      (.ok (weatherNamesFromLines
        (readLines (env.run [strip c, "-u", "-m", "cea.cli", "weather-files"]).stdout)),
       [.spawn [strip c, "-u", "-m", "cea.cli", "weather-files"]]) := by
  simp [get_weather_names, get_python_exe, hp]

/-- Unfolding of the effect trace of `run_cli` when the interpreter path file
is present. -/
theorem run_cli_effects (env : Env) (c scenario_path : String) (args : List String)
    (hp : env.cea_python_pth = some c) :
    (run_cli env scenario_path args).2 =
      .spawn ([strip c, "-u", "-m", "cea.cli", "--scenario", scenario_path] ++ args) ::
      ((((readLines (env.run ([strip c, "-u", "-m", "cea.cli", "--scenario", scenario_path]
            ++ args)).stdout).map rstrip) ++
        List.replicate (env.run ([strip c, "-u", "-m", "cea.cli", "--scenario", scenario_path]
            ++ args)).emptyPolls "").map Effect.addMessage) ++
      [.addMessage "", .addMessage (env.run ([strip c, "-u", "-m", "cea.cli", "--scenario",
        scenario_path] ++ args)).stderr] := by
  simp [run_cli, get_python_exe, hp]

/-- `loggedMessages` ignores a leading spawn effect. -/
theorem loggedMessages_cons_spawn (cmd : List String) (effs : List Effect) :
    loggedMessages (Effect.spawn cmd :: effs) = loggedMessages effs := by
  simp [loggedMessages]

/-- `loggedMessages` distributes over concatenation. -/
theorem loggedMessages_append (a b : List Effect) :
    loggedMessages (a ++ b) = loggedMessages a ++ loggedMessages b := by
  simp [loggedMessages]

/-- `loggedMessages` recovers the messages of a pure `addMessage` block. -/
theorem loggedMessages_map_addMessage (l : List String) :
    loggedMessages (l.map Effect.addMessage) = l := by
  induction l with
  | nil => rfl
  | cons x xs ih => simp only [List.map_cons, loggedMessages, List.filterMap_cons] at ih ⊢; rw [ih]

/-- `addMessage` effects carry no spawned weather path. -/
theorem filterMap_spawnWeatherArg_addMessage (l : List String) :
    (l.map Effect.addMessage).filterMap spawnWeatherArg = [] := by
  induction l with
  | nil => rfl
  | cons x xs ih => simp only [List.map_cons, List.filterMap_cons, spawnWeatherArg]; exact ih

/-- The scenario-not-found message differs from the radiation-data message,
whatever the scenario path appended to it. -/
theorem scenario_not_found_ne_radiation (sp : String) :
    "Scenario folder not found: " ++ sp ≠
      "No radiation data found for scenario. Run radiation script first." := by
  intro h
  have hd : (("Scenario folder not found: " ++ sp).data).take 1 =
      ("No radiation data found for scenario. Run radiation script first." : String).data.take 1 := by
    rw [h]
  rw [String.data_append, List.take_append_eq_append_take] at hd
  have hz : 1 - ("Scenario folder not found: " : String).data.length = 0 := by decide
  rw [hz, List.take_zero, List.append_nil] at hd
  exact absurd hd (by decide)

/-- C6: for every non-`None` scenario path, `updateMessages` flags the path
as invalid exactly when it does not exist on disk (the only message set is
the scenario-not-found one, and it is never set when the path exists); and
when the path does exist, the radiation-file check and the
surface-properties-file check are both performed, each contributing its error
message independently of the other's outcome, exactly when its file is
missing. -/
theorem updateMessages_scenario_checks (env : Env) (sp rad surf : String)
    (hr : (get_radiation env sp).1 = .ok rad)
    (hs : (get_surface_properties env sp).1 = .ok surf) :
    (env.pathExists sp = false →
      errorMessagesSet (updateMessages env (some sp)).2 =
        ["Scenario folder not found: " ++ sp]) ∧
    (env.pathExists sp = true →
      errorMessagesSet (updateMessages env (some sp)).2 =
        (if env.pathExists rad = true then []
          else ["No radiation data found for scenario. Run radiation script first."]) ++
        (if env.pathExists surf = true then []
          else ["No radiation data found for scenario. Run radiation script first."]) ∧
      ("Scenario folder not found: " ++ sp) ∉
        errorMessagesSet (updateMessages env (some sp)).2) := by
  obtain ⟨c, hc, hradEq⟩ := cli_output_ok env sp ["locate", "get_radiation"] rad hr
  obtain ⟨c2, hc2, hsurfEq⟩ := cli_output_ok env sp ["locate", "get_surface_properties"] surf hs
  constructor
  · intro hex
    simp [updateMessages, hex, errorMessagesSet]
  · intro hex
    have heq : errorMessagesSet (updateMessages env (some sp)).2 =
        (if env.pathExists rad = true then []
          else ["No radiation data found for scenario. Run radiation script first."]) ++
        (if env.pathExists surf = true then []
          else ["No radiation data found for scenario. Run radiation script first."]) := by
      by_cases h1 : env.pathExists rad = true <;> by_cases h2 : env.pathExists surf = true <;>
        simp [updateMessages, get_radiation, get_surface_properties, hradEq, hsurfEq, hex, h1, h2,
          errorMessagesSet]
    refine ⟨heq, ?_⟩
    rw [heq]
    by_cases h1 : env.pathExists rad = true <;> by_cases h2 : env.pathExists surf = true <;>
      simp [h1, h2, scenario_not_found_ne_radiation sp]

/-- Environment with an existing scenario folder whose radiation and
surface-properties files are both missing, for the C6 witness. -/
def envScenario : Env :=
  { cea_python_pth := some "python"
    pathExists := fun p => p == "scn"
    run := fun cmd =>
      if cmd = ["python", "-m", "cea.cli", "--scenario", "scn", "locate", "get_radiation"] then
        { exitCode := 0, stdout := "r.csv\n", stderr := "", emptyPolls := 0 }
      else if cmd = ["python", "-m", "cea.cli", "--scenario", "scn", "locate",
          "get_surface_properties"] then
        { exitCode := 0, stdout := "s.csv\n", stderr := "", emptyPolls := 0 }
      else { exitCode := 0, stdout := "", stderr := "", emptyPolls := 0 } }

/-- Witness for C6 at a concrete environment: the scenario folder exists,
both data files are missing, and both checks set their error message. -/
theorem updateMessages_scenario_checks_witness :
    envScenario.pathExists "scn" = true ∧
    errorMessagesSet (updateMessages envScenario (some "scn")).2 =
      ["No radiation data found for scenario. Run radiation script first.",
       "No radiation data found for scenario. Run radiation script first."] := by
  have h := updateMessages_scenario_checks envScenario "scn" "r.csv" "s.csv"
    (by decide) (by decide)
  refine ⟨by decide, ?_⟩
  rw [(h.2 (by decide)).1]
  decide

/-- Environment whose CLI subprocess streams two stdout lines and writes to
stderr, for the C7 counterexample and witness. -/
def envStream : Env :=
  { cea_python_pth := some "python"
    pathExists := fun _ => false
    run := fun _ => { exitCode := 0, stdout := "a\nb\n", stderr := "err", emptyPolls := 0 } }

/-- Counterexample to C7 as stated: the final streamed stdout line `b` is
logged exactly once, not twice — the post-exit `communicate()` drain returns
only the stdout that was *not* already consumed by the streaming loop, which
is nothing, since the loop reads to end of file. -/
theorem run_cli_final_lines_once_cex :
    loggedMessages (run_cli envStream "scn" ["demand"]).2 = ["a", "b", "", "err"] ∧
    (loggedMessages (run_cli envStream "scn" ["demand"]).2).count "b" = 1 := by
  constructor <;> decide

/-- C7 amended: `run_cli` logs each stdout line (right-stripped) once as it
arrives, then after the process exits logs the remaining stdout — which is
empty, because the streaming loop already read the stream to end of file —
and the full stderr; consequently no streamed line is logged a second time by
the final drain (any message other than the empty string and the stderr text
appears exactly as often as in the streamed lines). -/
theorem run_cli_logs_each_line_once (env : Env) (scenario_path : String)
    (args : List String) (c : String) (hp : env.cea_python_pth = some c) :
    loggedMessages (run_cli env scenario_path args).2 =
      ((readLines (env.run ([strip c, "-u", "-m", "cea.cli", "--scenario", scenario_path]
          ++ args)).stdout).map rstrip) ++
      List.replicate (env.run ([strip c, "-u", "-m", "cea.cli", "--scenario", scenario_path]
          ++ args)).emptyPolls "" ++
      ["", (env.run ([strip c, "-u", "-m", "cea.cli", "--scenario", scenario_path]
          ++ args)).stderr] ∧
    ∀ s : String, s ≠ "" →
      s ≠ (env.run ([strip c, "-u", "-m", "cea.cli", "--scenario", scenario_path]
          ++ args)).stderr →
      (loggedMessages (run_cli env scenario_path args).2).count s =
        (((readLines (env.run ([strip c, "-u", "-m", "cea.cli", "--scenario", scenario_path]
            ++ args)).stdout).map rstrip)).count s := by
  have hkey : loggedMessages (run_cli env scenario_path args).2 =
      ((readLines (env.run ([strip c, "-u", "-m", "cea.cli", "--scenario", scenario_path]
          ++ args)).stdout).map rstrip) ++
      List.replicate (env.run ([strip c, "-u", "-m", "cea.cli", "--scenario", scenario_path]
          ++ args)).emptyPolls "" ++
      ["", (env.run ([strip c, "-u", "-m", "cea.cli", "--scenario", scenario_path]
          ++ args)).stderr] := by
    rw [run_cli_effects env c scenario_path args hp, loggedMessages_append,
      loggedMessages_cons_spawn, loggedMessages_map_addMessage]
    simp [loggedMessages, List.append_assoc]
  refine ⟨hkey, fun s hs1 hs2 => ?_⟩
  rw [hkey]
  rw [List.count_append, List.count_append]
  have hrep : (List.replicate (env.run ([strip c, "-u", "-m", "cea.cli", "--scenario",
      scenario_path] ++ args)).emptyPolls "").count s = 0 := by
    rw [List.count_eq_zero]
    intro hmem
    exact hs1 (List.eq_of_mem_replicate hmem)
  have hlast : (["", (env.run ([strip c, "-u", "-m", "cea.cli", "--scenario", scenario_path]
      ++ args)).stderr] : List String).count s = 0 := by
    rw [List.count_eq_zero]
    simp only [List.mem_cons, List.not_mem_nil, or_false]
    rintro (h | h)
    · exact hs1 h
    · exact hs2 h
  rw [hrep, hlast]
  omega

/-- Witness for the amended C7 at a concrete environment. -/
theorem run_cli_logs_each_line_once_witness :
    loggedMessages (run_cli envStream "scn" ["demand", "--weather", "w.epw"]).2 =
      ["a", "b", "", "err"] ∧
    (loggedMessages (run_cli envStream "scn" ["demand", "--weather", "w.epw"]).2).count "a" = 1 := by
  have h := run_cli_logs_each_line_once envStream "scn" ["demand", "--weather", "w.epw"]
    "python" rfl
  constructor
  · rw [h.1]
    decide
  · rw [h.2 "a" (by decide) (by decide)]
    decide

/-! ## Weather-argument resolution in `DemandTool.execute` -/

/-- C5 amended: for every weather argument that is not in the registered
weather-name list, is an existing path on disk and ends in `.epw`, the
resolved weather path handed to the `demand` CLI invocation is that argument
unchanged.  (The unamended claim fails when the argument is *also* a
registered weather name: the name-lookup branch runs first and may substitute
a different path.) -/
theorem execute_unregistered_epw_used_directly (env : Env)
    (sp wn : String) (names : List String)
    (h1 : (get_weather_names env).1 = .ok names)
    (h2 : wn ∉ names)
    (h3 : env.pathExists wn = true)
    (h4 : strEndsWith wn ".epw" = true) :
    demandSpawnWeather (DemandTool.execute env sp wn).2 = some wn := by
  cases hp : env.cea_python_pth with
  | none => simp [get_weather_names, get_python_exe, hp] at h1
  | some c =>
    have hnames : names = weatherNamesFromLines
        (readLines (env.run [strip c, "-u", "-m", "cea.cli", "weather-files"]).stdout) := by
      have := get_weather_names_eq env c hp
      rw [this] at h1
      exact (Except.ok.injEq _ _ ▸ h1).symm
    subst hnames
    simp only [DemandTool.execute, get_weather_names_eq env c hp]
    rw [if_neg h2, if_pos (by rw [h3, h4]; rfl)]
    rw [show (run_cli env sp ["demand", "--weather", wn]).2 = _ from
      run_cli_effects env c sp ["demand", "--weather", wn] hp]
    simp only [demandSpawnWeather, List.filterMap_append, List.filterMap_cons,
      List.cons_append, List.nil_append, spawnWeatherArg,
      filterMap_spawnWeatherArg_addMessage, List.filterMap_nil]
    rfl

/-- Environment in which the weather argument `w.epw` is simultaneously a
registered weather name and an existing `.epw` path, and the name lookup
resolves it to a different file, for the C5 counterexample. -/
def envNameShadowsPath : Env :=
  { cea_python_pth := some "python"
    pathExists := fun p => p == "w.epw"
    run := fun cmd =>
      if cmd = ["python", "-u", "-m", "cea.cli", "weather-files"] then
        { exitCode := 0, stdout := "w.epw\n", stderr := "", emptyPolls := 0 }
      else if cmd = ["python", "-m", "cea.cli", "--scenario", "", "weather-path", "w.epw"] then
        { exitCode := 0, stdout := "registry-w.epw\n", stderr := "", emptyPolls := 0 }
      else { exitCode := 0, stdout := "", stderr := "", emptyPolls := 0 } }

/-- Counterexample to C5 as stated: `w.epw` is an existing path ending in
`.epw`, yet the resolved weather path is the name-lookup result
`registry-w.epw`, not the argument unchanged, because the registered-name
branch of `DemandTool.execute` runs first. -/
theorem execute_epw_path_substituted_cex :
    envNameShadowsPath.pathExists "w.epw" = true ∧
    strEndsWith "w.epw" ".epw" = true ∧
    demandSpawnWeather (DemandTool.execute envNameShadowsPath "scn" "w.epw").2 =
      some "registry-w.epw" ∧
    demandSpawnWeather (DemandTool.execute envNameShadowsPath "scn" "w.epw").2 ≠
      some "w.epw" := by
  refine ⟨by decide, by decide, by decide, by decide⟩

/-- Environment whose registered weather names do not contain the argument,
for the witness of the amended C5. -/
def envLocalEpw : Env :=
  { cea_python_pth := some "python"
    pathExists := fun p => p == "local.epw"
    run := fun cmd =>
      if cmd = ["python", "-u", "-m", "cea.cli", "weather-files"] then
        { exitCode := 0, stdout := "Zug\n", stderr := "", emptyPolls := 0 }
      else { exitCode := 0, stdout := "", stderr := "", emptyPolls := 0 } }

/-- Witness for the amended C5 at a concrete environment. -/
theorem execute_unregistered_epw_used_directly_witness :
    demandSpawnWeather (DemandTool.execute envLocalEpw "scn" "local.epw").2 =
      some "local.epw" :=
  execute_unregistered_epw_used_directly envLocalEpw "scn" "local.epw" ["Zug"]
    (by decide) (by decide) (by decide) (by decide)

/-- C4: in `DemandTool.execute`, for every weather argument that is neither
in the registered weather-name list nor an existing path ending in `.epw`,
the resolved weather path handed to the `demand` CLI invocation is the result
of the default lookup `get_weather()` with no argument (the
`weather-path default` CLI query). -/
theorem execute_fallback_to_default_weather (env : Env)
    (sp wn : String) (names : List String) (wp : String)
    (h1 : (get_weather_names env).1 = .ok names)
    (h2 : wn ∉ names)
    (h3 : (env.pathExists wn && strEndsWith wn ".epw") = false)
    (h4 : (get_weather env "default").1 = .ok wp) :
    demandSpawnWeather (DemandTool.execute env sp wn).2 = some wp := by
  cases hp : env.cea_python_pth with
  | none => simp [get_weather_names, get_python_exe, hp] at h1
  | some c =>
    have hnames : names = weatherNamesFromLines
        (readLines (env.run [strip c, "-u", "-m", "cea.cli", "weather-files"]).stdout) := by
      have := get_weather_names_eq env c hp
      rw [this] at h1
      exact (Except.ok.injEq _ _ ▸ h1).symm
    subst hnames
    obtain ⟨c3, hc3, hwEq⟩ := cli_output_ok env "" ["weather-path", "default"] wp h4
    rw [hp] at hc3
    have hcc : c = c3 := Option.some.injEq _ _ ▸ hc3
    rw [← hcc] at hwEq
    simp only [DemandTool.execute, get_weather_names_eq env c hp]
    rw [if_neg h2, if_neg (by rw [h3]; exact Bool.false_ne_true)]
    simp only [get_weather, hwEq]
    rw [show (run_cli env sp ["demand", "--weather", wp]).2 = _ from
      run_cli_effects env c sp ["demand", "--weather", wp] hp]
    simp only [demandSpawnWeather, List.filterMap_append, List.filterMap_cons,
      List.cons_append, List.nil_append, spawnWeatherArg,
      filterMap_spawnWeatherArg_addMessage, List.filterMap_nil]
    rfl

/-- Environment in which the weather argument is unknown and does not exist
on disk, and the default lookup resolves to `default.epw`, for the C4
witness. -/
def envDefaultFallback : Env :=
  { cea_python_pth := some "python"
    pathExists := fun _ => false
    run := fun cmd =>
      if cmd = ["python", "-u", "-m", "cea.cli", "weather-files"] then
        { exitCode := 0, stdout := "Zug\n", stderr := "", emptyPolls := 0 }
      else if cmd = ["python", "-m", "cea.cli", "--scenario", "", "weather-path", "default"] then
        { exitCode := 0, stdout := "default.epw\n", stderr := "", emptyPolls := 0 }
      else { exitCode := 0, stdout := "", stderr := "", emptyPolls := 0 } }

/-- Witness for C4 at a concrete environment. -/
theorem execute_fallback_to_default_weather_witness :
    demandSpawnWeather (DemandTool.execute envDefaultFallback "scn" "nowhere").2 =
      some "default.epw" :=
  execute_fallback_to_default_weather envDefaultFallback "scn" "nowhere" ["Zug"] "default.epw"
    (by decide) (by decide) (by decide) (by decide)
